import Mathlib

/-!
Verification of the inverter-telemetry core of `home-assistant-dess-monitor`:
a shallow embedding, over `Nat` / `Int` / `Rat` and `List Nat` byte
sequences, of the CRC16/MODBUS checksum, the Modbus-RTU frame
builder/validator/decoder, the register-block telemetry parser, the QPIGS
ASCII decoder, the signed-battery-current resolver and the two stateful
estimators (trapezoidal energy accumulator, coulomb-counting SOC
estimator), together with theorems settling the claims of the specification.

Bytes are modelled as natural numbers (`< 256` on real frames); Python
`float` values are modelled as rationals (all operations involved are
exact on the decimal inputs considered); Python `None` is `Option.none`;
raising `ValueError` is an `Except.error` result.
-/

set_option maxRecDepth 10000

namespace DessMonitor

/-! ### CRC16/MODBUS
Embeds `crc16_modbus` and `append_crc` from
`api/commands/direct/providers/aneji_modbus_provider.py` (lines 15-34). -/

/-- One bit step of CRC-16/MODBUS: shift right, XOR with 0xA001 when the
LSB was set. -/
def crc16_bit (crc : ℕ) : ℕ :=
  if crc &&& 1 = 1 then (crc >>> 1) ^^^ 0xA001 else crc >>> 1

/-- One byte step: XOR the byte into the CRC, then eight bit steps
(LSB-first per byte). -/
def crc16_byte (crc b : ℕ) : ℕ :=
  crc16_bit^[8] (crc ^^^ b)

/-- `crc16_modbus(data)`: poly 0xA001, init 0xFFFF, final mask 0xFFFF. -/
def crc16_modbus (data : List ℕ) : ℕ :=
  (data.foldl crc16_byte 0xFFFF) &&& 0xFFFF

/-- Python struct.unpack of format <H on a two-byte list: low byte first. -/
def le16_of (l : List ℕ) : ℕ :=
  l.getD 0 0 + 256 * l.getD 1 0

/-- `append_crc(data_wo_crc)`: append the CRC as low byte then high byte
(struct.pack with format <H; the CRC is `< 0x10000` by construction). -/
def append_crc (data_wo_crc : List ℕ) : List ℕ :=
  data_wo_crc ++ [crc16_modbus data_wo_crc % 256, crc16_modbus data_wo_crc / 256]

/-! ### Modbus-RTU frame builder / validator / decoder
Embeds `build_read_holding`, `_expect_read_response`, `bytes_to_u16_list`
and `decode_read_response` from `aneji_modbus_provider.py`.  Each distinct
`raise ValueError(...)` site becomes a distinct `ModbusError` constructor
(the Python messages carry the same parameters the constructors do). -/

/-- The distinct `ValueError` raise sites of the Modbus read-response
validation and register decoding, one constructor per message. -/
inductive ModbusError where
  | responseTooShort
  | crcMismatch (recv computed : ℕ)
  | unexpectedSlaveId (got expected : ℕ)
  | unexpectedFunctionCode (code : ℕ)
  | byteCountMismatch (byte_count data_len : ℕ)
  | unexpectedRegCount (got expected : ℕ)
  | oddDataLength
  deriving DecidableEq, Repr

/-- `_expect_read_response(slave_id, req_func, payload, expected_regs)`:
validate an RTU read response `[sid][func][byte_count][data...][crc_lo][crc_hi]`,
returning `(byte_count, data_bytes)`. -/
def _expect_read_response (slave_id req_func : ℕ) (payload : List ℕ)
    (expected_regs : Option ℕ) : Except ModbusError (ℕ × List ℕ) :=
  if payload.length < 5 then .error .responseTooShort
  else
    let data_wo_crc := payload.take (payload.length - 2)
    let recv_crc := le16_of (payload.drop (payload.length - 2))
    let calc_crc := crc16_modbus data_wo_crc
    if recv_crc ≠ calc_crc then .error (.crcMismatch recv_crc calc_crc)
    else
      let sid := payload.getD 0 0
      let func := payload.getD 1 0
      if sid ≠ slave_id then .error (.unexpectedSlaveId sid slave_id)
      else if func ≠ req_func then .error (.unexpectedFunctionCode func)
      else
        let byte_count := payload.getD 2 0
        let data := (payload.drop 3).take (payload.length - 5)
        if byte_count ≠ data.length then .error (.byteCountMismatch byte_count data.length)
        else
          match expected_regs with
          | some n =>
            if byte_count ≠ n * 2 then .error (.unexpectedRegCount (byte_count / 2) n)
            else .ok (byte_count, data)
          | none => .ok (byte_count, data)

/-- `build_read_holding(slave_id, start_reg, reg_count)`: a function 0x03
Read Holding Registers request, struct.pack with format >BHH of (3, start, count)
behind the slave id, CRC appended. -/
def build_read_holding (slave_id start_reg reg_count : ℕ) :
    Except String (List ℕ) :=
  if ¬ (1 ≤ slave_id ∧ slave_id ≤ 247) then .error "slave_id must be 1..247"
  else if ¬ (start_reg ≤ 65535) then .error "start_reg must be 0..65535"
  else if ¬ (1 ≤ reg_count ∧ reg_count ≤ 125) then .error "reg_count must be 1..125"
  else .ok (append_crc
    [slave_id, 3, start_reg / 256, start_reg % 256, reg_count / 256, reg_count % 256])

/-- Big-endian 16-bit register values of a byte list, two bytes per
register (struct.unpack with a big-endian 16-bit format per register). -/
def regsOfBytes : List ℕ → List ℕ
  | a :: b :: rest => (a * 256 + b) :: regsOfBytes rest
  | _ => []

/-- `bytes_to_u16_list(data)`: reject odd lengths, else unpack big-endian
16-bit values. -/
def bytes_to_u16_list (data : List ℕ) : Except ModbusError (List ℕ) :=
  if data.length % 2 = 1 then .error .oddDataLength
  else .ok (regsOfBytes data)

/-- The inverse direction used to build synthetic frames: each 16-bit
register value becomes its two big-endian bytes (struct.pack with format >H;
values are `< 0x10000` on real frames). -/
def bytesOfRegs : List ℕ → List ℕ
  | [] => []
  | x :: rest => x / 256 :: x % 256 :: bytesOfRegs rest

/-- `decode_read_response(slave_id, start_reg, reg_count, response)`:
validate a 0x03 read response and decode the data into register values
(the Python wrapper additionally parses a hex string into the byte
sequence taken here; `start_reg` is accepted but unused, as in the
source). -/
def decode_read_response (slave_id start_reg reg_count : ℕ)
    (payload : List ℕ) : Except ModbusError (List ℕ) :=
  match _expect_read_response slave_id 3 payload (some reg_count) with
  | .error e => .error e
  | .ok (_, data) => bytes_to_u16_list data

/-! ### Register block and telemetry parsing
Embeds `RuntimeTelemetry.parse_from_block` with its local helpers
`get_int`, `get_uint`, `get_ascii`, the `PowerFlow` bitfield decoding and
the module helper `_ascii`.  Decoded strings are modelled as lists of
character codes. -/

/-- The dict `block = {start_reg + i: regs[i] for i in range(len(regs))}`
as a lookup function on absolute addresses. -/
def blockOf (start_reg : ℕ) (regs : List ℕ) (addr : ℕ) : Option ℕ :=
  if start_reg ≤ addr then regs[addr - start_reg]? else none

/-- Pack then unpack of a register as big-endian signed (formats >H then >h): reinterpret an unsigned
16-bit value as two's-complement (defined for `w < 0x10000`, the range of
decoded register values). -/
def toSigned16 (w : ℕ) : ℤ :=
  if w < 32768 then (w : ℤ) else (w : ℤ) - 65536

/-- Python `int(...)` on a float: truncation toward zero. -/
def ratTrunc (q : ℚ) : ℤ :=
  if 0 ≤ q then Int.floor q else Int.ceil q

/-- `get_int(addr, scale)`: scaled signed register value when present. -/
def get_int (start_reg : ℕ) (regs : List ℕ) (addr : ℕ) (scale : ℚ) : Option ℚ :=
  (blockOf start_reg regs addr).map (fun w => (toSigned16 w : ℚ) * scale)

/-- `get_uint(addr)`: unsigned register value when present. -/
def get_uint (start_reg : ℕ) (regs : List ℕ) (addr : ℕ) : Option ℕ :=
  blockOf start_reg regs addr

/-- Python whitespace as stripped by `str.strip()` on ASCII data
(`\t \n \v \f \r`, space, and the separator controls 0x1C-0x1F). -/
def isPySpace (c : ℕ) : Bool :=
  c == 9 || c == 10 || c == 11 || c == 12 || c == 13 ||
  c == 28 || c == 29 || c == 30 || c == 31 || c == 32

/-- Python bytes.decode as ASCII with errors ignored: keep only bytes `< 0x80`. -/
def pyDecodeAsciiIgnore (l : List ℕ) : List ℕ :=
  l.filter (fun c => c < 128)

/-- `str.rstrip(chars)`: drop from the right every character in `chars`. -/
def pyRstrip (chars : List ℕ) (l : List ℕ) : List ℕ :=
  (l.reverse.dropWhile (fun c => chars.contains c)).reverse

/-- `str.strip()`: drop whitespace from both ends. -/
def pyStrip (l : List ℕ) : List ℕ :=
  ((l.dropWhile isPySpace).reverse.dropWhile isPySpace).reverse

/-- `get_ascii(addr, words)` from `parse_from_block`: when all `words`
registers are present, concatenate their big-endian byte pairs, decode
ASCII ignoring errors, then rstrip and strip.  NOTE: the source passes the
rstrip argument as a string literal spelled with a DOUBLED backslash
(backslash backslash x 0 0), so the characters stripped from the right are
backslash (92), letter x (120) and digit 0 (48) — not the NUL byte. -/
def get_ascii (start_reg : ℕ) (regs : List ℕ) (addr words : ℕ) : Option (List ℕ) :=
  if (List.range words).all (fun i => (blockOf start_reg regs (addr + i)).isSome) then
    some (pyStrip (pyRstrip [92, 120, 48] (pyDecodeAsciiIgnore
      ((List.range words).flatMap (fun i =>
        [(blockOf start_reg regs (addr + i)).getD 0 / 256,
         (blockOf start_reg regs (addr + i)).getD 0 % 256])))))
  else none

/-- The module-level helper `_ascii(bytes_seq)` (line 129-131): decode
ASCII ignoring errors, right-strip NUL bytes, strip whitespace. -/
def _ascii (bytes_seq : List ℕ) : List ℕ :=
  pyStrip (pyRstrip [0] (pyDecodeAsciiIgnore bytes_seq))

/-- The `PowerFlow` dataclass. -/
structure PowerFlow where
  raw : ℕ
  pv_connected : Bool
  mains_connected : Bool
  battery_state : String
  load_on : Bool
  mains_charging : Bool
  pv_charging : Bool
  deriving DecidableEq, Repr

/-- `PowerFlow.from_raw`: bitfield decoding of register 231. -/
def PowerFlow.from_raw (raw : ℕ) : PowerFlow :=
  { raw := raw
    pv_connected := (raw &&& 3) == 1
    mains_connected := ((raw >>> 2) &&& 3) == 1
    battery_state :=
      if (raw >>> 4) &&& 3 = 0 then "idle"
      else if (raw >>> 4) &&& 3 = 1 then "charging"
      else if (raw >>> 4) &&& 3 = 2 then "discharging"
      else "unknown"
    load_on := ((raw >>> 6) &&& 3) == 1
    mains_charging := ((raw >>> 8) &&& 1) == 1
    pv_charging := ((raw >>> 9) &&& 1) == 1 }

/-- The `RuntimeTelemetry` dataclass: every field optional, `None` meaning
"not present in this read span". -/
structure RuntimeTelemetry where
  device_type : Option ℕ := none
  device_name : Option (List ℕ) := none
  protocol_number : Option ℕ := none
  serial_number : Option (List ℕ) := none
  work_mode : Option ℕ := none
  power_flow : Option PowerFlow := none
  mains_voltage_v : Option ℚ := none
  mains_freq_hz : Option ℚ := none
  mains_power_w : Option ℤ := none
  inv_voltage_v : Option ℚ := none
  inv_current_a : Option ℚ := none
  inv_freq_hz : Option ℚ := none
  inv_power_w : Option ℤ := none
  inv_charge_power_w : Option ℤ := none
  inv_charge_current_a : Option ℚ := none
  out_voltage_v : Option ℚ := none
  out_current_a : Option ℚ := none
  out_freq_hz : Option ℚ := none
  out_active_power_w : Option ℤ := none
  out_apparent_power_va : Option ℤ := none
  load_percent : Option ℤ := none
  bat_voltage_v : Option ℚ := none
  bat_current_a : Option ℚ := none
  bat_power_w : Option ℤ := none
  soc_percent : Option ℕ := none
  pv_voltage_v : Option ℚ := none
  pv_current_a : Option ℚ := none
  pv_power_w : Option ℤ := none
  pv_charge_power_w : Option ℤ := none
  pv_charge_current_a : Option ℚ := none
  deriving Repr

/-- `RuntimeTelemetry.parse_from_block(start_reg, regs)`:
field-by-field lookup in the address-keyed block; `int(...)`-cast fields
truncate the (integral) scaled value toward zero. -/
def parse_from_block (start_reg : ℕ) (regs : List ℕ) : RuntimeTelemetry :=
  { device_type := get_uint start_reg regs 171
    device_name := get_ascii start_reg regs 172 12
    protocol_number := get_uint start_reg regs 184
    serial_number := get_ascii start_reg regs 186 12
    work_mode := get_uint start_reg regs 201
    power_flow := (get_uint start_reg regs 231).map PowerFlow.from_raw
    mains_voltage_v := get_int start_reg regs 202 (1/10)
    mains_freq_hz := get_int start_reg regs 203 (1/100)
    mains_power_w := (get_int start_reg regs 204 1).map ratTrunc
    inv_voltage_v := get_int start_reg regs 205 (1/10)
    inv_current_a := get_int start_reg regs 206 (1/10)
    inv_freq_hz := get_int start_reg regs 207 (1/100)
    inv_power_w := (get_int start_reg regs 208 1).map ratTrunc
    inv_charge_power_w := (get_int start_reg regs 209 1).map ratTrunc
    inv_charge_current_a := get_int start_reg regs 233 (1/10)
    out_voltage_v := get_int start_reg regs 210 (1/10)
    out_current_a := get_int start_reg regs 211 (1/10)
    out_freq_hz := get_int start_reg regs 212 (1/100)
    out_active_power_w := (get_int start_reg regs 213 1).map ratTrunc
    out_apparent_power_va := (get_int start_reg regs 214 1).map ratTrunc
    load_percent := (get_int start_reg regs 225 1).map ratTrunc
    bat_voltage_v := get_int start_reg regs 215 (1/10)
    bat_current_a := get_int start_reg regs 216 (1/10)
    bat_power_w := (get_int start_reg regs 217 1).map ratTrunc
    soc_percent := get_uint start_reg regs 229
    pv_voltage_v := get_int start_reg regs 219 (1/10)
    pv_current_a := get_int start_reg regs 220 (1/10)
    pv_power_w := (get_int start_reg regs 223 1).map ratTrunc
    pv_charge_power_w := (get_int start_reg regs 224 1).map ratTrunc
    pv_charge_current_a := get_int start_reg regs 234 (1/10) }

/-! ### Signed battery current resolvers
Embeds `_battery_current` (`qpigs_provider.py`, lines 134-148) and the
identical `_battery_current_signed` (`direct_coordinator.py`, lines
30-46).  The inputs model the values after the `_f` float coercion:
`None` when the field is missing or unparsable, the parsed number
otherwise; the Python `ci or 0.0` idiom is `Option.getD 0` (a present
`0.0` is falsy and maps to `0.0` just the same). -/

/-- Signed battery current from unsigned charge/discharge currents
(positive = charging, negative = discharging). -/
def _battery_current (ci di : Option ℚ) : Option ℚ :=
  if ci = none ∧ di = none then none
  else
    let c := ci.getD 0
    let d := di.getD 0
    if 0 < c ∧ d = 0 then some c
    else if 0 < d ∧ c = 0 then some (-d)
    else some (c - d)

/-- The coordinator copy of the same resolver. -/
def _battery_current_signed (ci di : Option ℚ) : Option ℚ :=
  if ci = none ∧ di = none then none
  else
    let c := ci.getD 0
    let d := di.getD 0
    if 0 < c ∧ d = 0 then some c
    else if 0 < d ∧ c = 0 then some (-d)
    else some (c - d)

/-! ### Stateful estimators
Embeds `MyEnergySensor.update_energy_value` (`energy_sensors.py`, lines
43-50) and `SocCalculatorMixin._accumulate` / `calculate_soc`
(`mixin_sensors.py`, lines 84-113).  The wall clock (`datetime.now()`)
becomes an explicit `now` argument in seconds; instance attributes become
an explicit state record threaded through the update. -/

/-- The mutable state of `MyEnergySensor`: accumulated watt-hours, the
previous power sample, the previous sample timestamp (seconds). -/
structure EnergySensorState where
  native_value : ℚ
  prev_value : Option ℚ
  prev_value_timestamp : ℚ
  deriving DecidableEq, Repr

/-- `update_energy_value(current_value)` at wall-clock time `now`:
`elapsed_seconds = int(now - prev_timestamp)` (truncated to a whole
number of seconds), trapezoid added only when a previous sample exists,
previous sample and timestamp always replaced. -/
def update_energy_value (s : EnergySensorState) (now current_value : ℚ) :
    EnergySensorState :=
  let elapsed_seconds : ℤ := ratTrunc (now - s.prev_value_timestamp)
  { native_value :=
      match s.prev_value with
      | some p => s.native_value + ((elapsed_seconds : ℚ) / 3600) * ((p + current_value) / 2)
      | none => s.native_value
    prev_value := some current_value
    prev_value_timestamp := now }

/-- The mutable state of `SocCalculatorMixin`. -/
structure SocState where
  accumulated_energy_wh : ℚ
  prev_power : ℚ
  prev_ts : ℚ
  has_prev : Bool
  deriving DecidableEq, Repr

/-- `_accumulate(current_power)` at wall-clock time `now` (seconds): on
the first sample only record it; afterwards add the trapezoid over the
exact elapsed time in hours. -/
def _accumulate (s : SocState) (now current_power : ℚ) : SocState :=
  if s.has_prev = false then
    { s with prev_ts := now, prev_power := current_power, has_prev := true }
  else
    let hours := (now - s.prev_ts) / 3600
    { s with
      accumulated_energy_wh :=
        s.accumulated_energy_wh + (s.prev_power + current_power) / 2 * hours
      prev_power := current_power
      prev_ts := now }

/-- `calculate_soc(capacity_wh, bulk_v, float_v, current_power,
current_voltage)` at wall-clock time `now`: accumulate, snap to full
capacity on the bulk/float condition, clamp to `[0, capacity]`, return
the new state and the SOC percentage. -/
def calculate_soc (s : SocState) (now capacity_wh bulk_v float_v
    current_power current_voltage : ℚ) : SocState × ℚ :=
  let s1 := _accumulate s now current_power
  let acc2 :=
    if bulk_v ≤ current_voltage ∨
        (float_v ≤ current_voltage ∧ 0 < current_power ∧ current_power ≤ 2 * bulk_v)
    then capacity_wh
    else s1.accumulated_energy_wh
  let acc3 := min (max acc2 0) capacity_wh
  ({ s1 with accumulated_energy_wh := acc3 }, acc3 / capacity_wh * 100)

/-! ### QPIGS ASCII decoding
Embeds `decode_qpigs` and its local `parse_value` from
`custom_components/debug_tty.py` (lines 17-59).  Python float parsing is
modelled on its decimal-literal fragment (optional sign, digits with an
optional decimal point, optional decimal exponent, surrounding
whitespace), which is exact in rational arithmetic; the special float
spellings (inf, nan, underscore separators, hex) are outside the model
and outside the inputs the claims are about.  A parsed value is
represented as a pair `n : Int`, `e : Int` meaning `n * 10 ^ e`, so that
`float.is_integer()` and `int(...)` become exact integer computations. -/

/-- Whitespace on characters (same set as `isPySpace`). -/
def pyWsChar (c : Char) : Bool :=
  isPySpace c.toNat

/-- Take leading decimal digits as their values. -/
def takeDigits : List Char → List ℕ × List Char
  | [] => ([], [])
  | c :: rest =>
    if 48 ≤ c.toNat ∧ c.toNat ≤ 57 then
      let p := takeDigits rest
      ((c.toNat - 48) :: p.1, p.2)
    else ([], c :: rest)

/-- Digit list to natural number, most significant first. -/
def natOfDigits (ds : List ℕ) : ℕ :=
  ds.foldl (fun a d => 10 * a + d) 0

/-- Mantissa of a decimal literal: digits with an optional point, at
least one digit overall; returns the numerator, the count of fractional
digits, and the unconsumed rest. -/
def parseMantissa (cs : List Char) : Option ((ℕ × ℕ) × List Char) :=
  let p1 := takeDigits cs
  match p1.2 with
  | '.' :: r2 =>
    let p2 := takeDigits r2
    if p1.1.isEmpty ∧ p2.1.isEmpty then none
    else some ((natOfDigits (p1.1 ++ p2.1), p2.1.length), p2.2)
  | r => if p1.1.isEmpty then none else some ((natOfDigits p1.1, 0), r)

/-- Exponent digits after an optional sign; must consume everything. -/
def parseExpNat (cs : List Char) : Option ℤ :=
  let p := takeDigits cs
  if p.1.isEmpty ∨ ¬ p.2.isEmpty then none else some (natOfDigits p.1 : ℤ)

/-- Exponent part after the `e` marker. -/
def parseAfterExpMarker : List Char → Option ℤ
  | '+' :: r => parseExpNat r
  | '-' :: r => (parseExpNat r).map Neg.neg
  | r => parseExpNat r

/-- Unsigned decimal literal: mantissa then optional exponent; the value
is `n * 10 ^ e`. -/
def parseUnsignedPyFloat (cs : List Char) : Option (ℕ × ℤ) :=
  match parseMantissa cs with
  | none => none
  | some ((n, k), rest) =>
    match rest with
    | [] => some (n, -(k : ℤ))
    | c :: r =>
      if c = 'e' ∨ c = 'E' then
        match parseAfterExpMarker r with
        | some e => some (n, e - (k : ℤ))
        | none => none
      else none

/-- Python `float(v)` on the decimal fragment: strip whitespace, optional
sign, decimal literal; `none` models `ValueError`. -/
def parsePyFloatParts (s : String) : Option (ℤ × ℤ) :=
  let cs := ((s.data.dropWhile pyWsChar).reverse.dropWhile pyWsChar).reverse
  match cs with
  | '+' :: r => (parseUnsignedPyFloat r).map (fun p => ((p.1 : ℤ), p.2))
  | '-' :: r => (parseUnsignedPyFloat r).map (fun p => (-(p.1 : ℤ), p.2))
  | r => (parseUnsignedPyFloat r).map (fun p => ((p.1 : ℤ), p.2))

/-- A decoded QPIGS field value: Python int, float or str. -/
inductive PyVal where
  | int (z : ℤ)
  | float (q : ℚ)
  | str (s : String)
  deriving DecidableEq, Repr

/-- `parse_value(v)`: try `float(v)`; convert to `int` when the value has
no fractional part; keep the original string when parsing fails. -/
def parse_value (v : String) : PyVal :=
  match parsePyFloatParts v with
  | none => .str v
  | some (n, e) =>
    if 0 ≤ e then .int (n * 10 ^ e.toNat)
    else if n % (10 ^ (-e).toNat : ℤ) = 0 then .int (n / 10 ^ (-e).toNat)
    else .float ((n : ℚ) / (10 ^ (-e).toNat : ℤ))

/-- The fixed QPIGS field-name schema, in response order. -/
def qpigs_fields : List String :=
  ["grid_voltage", "grid_frequency", "ac_output_voltage",
   "ac_output_frequency", "output_apparent_power", "output_active_power",
   "load_percent", "bus_voltage", "battery_voltage",
   "battery_charging_current", "battery_capacity",
   "inverter_heat_sink_temperature", "pv_input_current",
   "pv_input_voltage", "scc_battery_voltage", "battery_discharge_current",
   "device_status_bits_b7_b0", "battery_voltage_offset", "eeprom_version",
   "pv_charging_power", "device_status_bits_b10_b8", "reserved_a",
   "reserved_bb", "reserved_cccc"]

/-- Python `str.split()` with no arguments: split on whitespace runs,
no empty tokens. -/
def splitWsAux : List Char → List Char → List (List Char)
  | [], acc => if acc.isEmpty then [] else [acc.reverse]
  | c :: rest, acc =>
    if pyWsChar c then
      if acc.isEmpty then splitWsAux rest []
      else acc.reverse :: splitWsAux rest []
    else splitWsAux rest (c :: acc)

/-- `ascii_str.strip().split()` (the leading strip is absorbed by the
argument-less split, which already ignores leading and trailing
whitespace). -/
def pySplit (s : String) : List String :=
  (splitWsAux s.data []).map (fun cs => String.mk cs)

/-- `decode_qpigs(ascii_str)`: split into tokens, parse each
opportunistically, zip against the field schema (`dict(zip(...))`
truncates at the shorter list); the dict is modelled as the association
list it is built from. -/
def decode_qpigs (ascii_str : String) : List (String × PyVal) :=
  List.zip qpigs_fields ((pySplit ascii_str).map parse_value)

theorem crc16_modbus_lt (data : List ℕ) : crc16_modbus data < 65536 :=
  Nat.lt_succ_of_le (Nat.and_le_right)

theorem append_crc_length (b : List ℕ) : (append_crc b).length = b.length + 2 := by
  simp [append_crc]

theorem append_crc_take (b : List ℕ) : (append_crc b).take b.length = b := by
  simpa [append_crc] using List.take_left b _

theorem append_crc_drop (b : List ℕ) :
    (append_crc b).drop b.length = [crc16_modbus b % 256, crc16_modbus b / 256] := by
  simpa [append_crc] using List.drop_left b _

/-- **C1.** CRC round-trip: for every byte sequence `b`, `append_crc b` is
`b` followed by the two bytes of `crc16_modbus b` low byte first, and
recomputing the CRC over the first `len b` bytes of the appended frame and
comparing it against the trailing little-endian 16-bit value always
matches.  The build path (`append_crc`) and the validate path (recompute
over `payload[:-2]`, unpack `payload[-2:]` little-endian) use the one
function `crc16_modbus` and the same byte order. -/
theorem crc_append_roundtrip (b : List ℕ) :
    append_crc b = b ++ [crc16_modbus b % 256, crc16_modbus b / 256] ∧
    (append_crc b).take b.length = b ∧
    crc16_modbus ((append_crc b).take ((append_crc b).length - 2)) =
      le16_of ((append_crc b).drop ((append_crc b).length - 2)) := by
  refine ⟨rfl, append_crc_take b, ?_⟩
  have hlen : (append_crc b).length - 2 = b.length := by
    simp [append_crc_length]
  rw [hlen, append_crc_take, append_crc_drop]
  simp [le16_of, Nat.mod_add_div]

/-! ### Helper lemmas -/

theorem getElem?_isSome_iff (l : List ℕ) (i : ℕ) : (l[i]?).isSome ↔ i < l.length := by
  rw [Option.isSome_iff_exists]
  constructor
  · rintro ⟨a, ha⟩
    exact (List.getElem?_eq_some.mp ha).1
  · intro h
    exact ⟨l[i], List.getElem?_eq_some.mpr ⟨h, rfl⟩⟩

theorem bytesOfRegs_length (v : List ℕ) : (bytesOfRegs v).length = 2 * v.length := by
  induction v with
  | nil => rfl
  | cons x t ih => simp [bytesOfRegs, ih]; omega

theorem regsOfBytes_bytesOfRegs (v : List ℕ) : regsOfBytes (bytesOfRegs v) = v := by
  induction v with
  | nil => rfl
  | cons x t ih =>
    show (x / 256 * 256 + x % 256) :: regsOfBytes (bytesOfRegs t) = x :: t
    rw [ih, Nat.mul_comm, Nat.div_add_mod]

/-- A well-formed read response built by `append_crc` over header and body
validates successfully and returns the byte count and the body. -/
theorem expect_read_response_append_ok (sid func bc : ℕ) (body : List ℕ)
    (er : Option ℕ) (hbc : bc = body.length)
    (her : er = none ∨ ∃ n, er = some n ∧ bc = n * 2) :
    _expect_read_response sid func (append_crc (sid :: func :: bc :: body)) er
      = .ok (bc, body) := by
  have hlen : (append_crc (sid :: func :: bc :: body)).length = body.length + 5 := by
    rw [append_crc_length]; simp
  have hsub : (append_crc (sid :: func :: bc :: body)).length - 2
      = (sid :: func :: bc :: body).length := by
    rw [hlen]; simp
  have htake : (append_crc (sid :: func :: bc :: body)).take
      ((append_crc (sid :: func :: bc :: body)).length - 2)
      = sid :: func :: bc :: body := by
    rw [hsub, append_crc_take]
  have hdrop : (append_crc (sid :: func :: bc :: body)).drop
      ((append_crc (sid :: func :: bc :: body)).length - 2)
      = [crc16_modbus (sid :: func :: bc :: body) % 256,
         crc16_modbus (sid :: func :: bc :: body) / 256] := by
    rw [hsub, append_crc_drop]
  have hcrc : le16_of ((append_crc (sid :: func :: bc :: body)).drop
      ((append_crc (sid :: func :: bc :: body)).length - 2))
      = crc16_modbus ((append_crc (sid :: func :: bc :: body)).take
        ((append_crc (sid :: func :: bc :: body)).length - 2)) := by
    rw [htake, hdrop]
    simp [le16_of, Nat.mod_add_div]
  have hrepr : append_crc (sid :: func :: bc :: body)
      = sid :: func :: bc :: (body ++ [crc16_modbus (sid :: func :: bc :: body) % 256,
          crc16_modbus (sid :: func :: bc :: body) / 256]) := by
    simp [append_crc]
  have hdata : ((append_crc (sid :: func :: bc :: body)).drop 3).take
      ((append_crc (sid :: func :: bc :: body)).length - 5) = body := by
    rw [hlen, hrepr]
    show (body ++ _).take (body.length + 5 - 5) = body
    rw [Nat.add_sub_cancel]
    exact List.take_left body _
  have hgd0 : (append_crc (sid :: func :: bc :: body)).getD 0 0 = sid := by
    rw [hrepr]; rfl
  have hgd1 : (append_crc (sid :: func :: bc :: body)).getD 1 0 = func := by
    rw [hrepr]; rfl
  have hgd2 : (append_crc (sid :: func :: bc :: body)).getD 2 0 = bc := by
    rw [hrepr]; rfl
  simp only [_expect_read_response]
  rw [if_neg (by omega)]
  rw [if_neg (by rw [hcrc]; exact fun h => h rfl)]
  rw [hgd0, hgd1, hgd2, hdata]
  rw [if_neg (fun h => h rfl), if_neg (fun h => h rfl), if_neg (fun h => h hbc)]
  rcases her with h | ⟨n, hn, hbc2⟩
  · rw [h]
  · rw [hn]
    show (if bc ≠ n * 2 then _ else Except.ok (bc, body)) = Except.ok (bc, body)
    rw [if_neg (fun h => h hbc2)]

/-! ### Claim theorems -/

/-- **C3 counterexample.** A device-reported exception (function code
0x83, high bit set) produces the very same error shape as a generic
function-code mismatch (here function code 4): both fall out of the one
`raise ValueError` site modelled by `ModbusError.unexpectedFunctionCode`,
so the exception is NOT surfaced distinctly, contrary to the claim. -/
theorem exception_frame_not_distinct :
    _expect_read_response 1 3 (append_crc [1, 131, 1]) (some 1)
      = .error (.unexpectedFunctionCode 131) ∧
    _expect_read_response 1 3 (append_crc [1, 4, 0]) (some 1)
      = .error (.unexpectedFunctionCode 4) := by
  exact ⟨rfl, rfl⟩

/-- **C3 (amended).** Validation performs its checks in the claimed
order, each violation yielding its own named error: (1) length `< 5`;
(2) CRC over all but the trailing two bytes against the trailing
little-endian value; (3) slave id; (4) function code — one error naming
the received code, with no separate category for high-bit exception
codes; (5) byte count against actual payload length and, when a register
count was requested, against twice that count; and a response passing
every check is decoded, never truncated or guessed around. -/
theorem expect_read_response_check_order (slave_id req_func : ℕ)
    (payload : List ℕ) (expected_regs : Option ℕ) :
    (payload.length < 5 →
      _expect_read_response slave_id req_func payload expected_regs
        = .error .responseTooShort) ∧
    (5 ≤ payload.length →
      le16_of (payload.drop (payload.length - 2))
          ≠ crc16_modbus (payload.take (payload.length - 2)) →
      _expect_read_response slave_id req_func payload expected_regs
        = .error (.crcMismatch (le16_of (payload.drop (payload.length - 2)))
            (crc16_modbus (payload.take (payload.length - 2))))) ∧
    (5 ≤ payload.length →
      le16_of (payload.drop (payload.length - 2))
          = crc16_modbus (payload.take (payload.length - 2)) →
      payload.getD 0 0 ≠ slave_id →
      _expect_read_response slave_id req_func payload expected_regs
        = .error (.unexpectedSlaveId (payload.getD 0 0) slave_id)) ∧
    (5 ≤ payload.length →
      le16_of (payload.drop (payload.length - 2))
          = crc16_modbus (payload.take (payload.length - 2)) →
      payload.getD 0 0 = slave_id →
      payload.getD 1 0 ≠ req_func →
      _expect_read_response slave_id req_func payload expected_regs
        = .error (.unexpectedFunctionCode (payload.getD 1 0))) ∧
    (5 ≤ payload.length →
      le16_of (payload.drop (payload.length - 2))
          = crc16_modbus (payload.take (payload.length - 2)) →
      payload.getD 0 0 = slave_id →
      payload.getD 1 0 = req_func →
      payload.getD 2 0 ≠ ((payload.drop 3).take (payload.length - 5)).length →
      _expect_read_response slave_id req_func payload expected_regs
        = .error (.byteCountMismatch (payload.getD 2 0)
            ((payload.drop 3).take (payload.length - 5)).length)) ∧
    (∀ n, 5 ≤ payload.length →
      le16_of (payload.drop (payload.length - 2))
          = crc16_modbus (payload.take (payload.length - 2)) →
      payload.getD 0 0 = slave_id →
      payload.getD 1 0 = req_func →
      payload.getD 2 0 = ((payload.drop 3).take (payload.length - 5)).length →
      expected_regs = some n →
      payload.getD 2 0 ≠ n * 2 →
      _expect_read_response slave_id req_func payload expected_regs
        = .error (.unexpectedRegCount (payload.getD 2 0 / 2) n)) ∧
    (5 ≤ payload.length →
      le16_of (payload.drop (payload.length - 2))
          = crc16_modbus (payload.take (payload.length - 2)) →
      payload.getD 0 0 = slave_id →
      payload.getD 1 0 = req_func →
      payload.getD 2 0 = ((payload.drop 3).take (payload.length - 5)).length →
      (expected_regs = none ∨ ∃ n, expected_regs = some n ∧ payload.getD 2 0 = n * 2) →
      _expect_read_response slave_id req_func payload expected_regs
        = .ok (payload.getD 2 0, (payload.drop 3).take (payload.length - 5))) := by
  refine ⟨?_, ?_, ?_, ?_, ?_, ?_, ?_⟩
  · intro h1
    simp only [_expect_read_response]
    rw [if_pos h1]
  · intro h1 h2
    simp only [_expect_read_response]
    rw [if_neg (by omega), if_pos h2]
  · intro h1 h2 h3
    simp only [_expect_read_response]
    rw [if_neg (by omega), if_neg (fun h => h h2), if_pos h3]
  · intro h1 h2 h3 h4
    simp only [_expect_read_response]
    rw [if_neg (by omega), if_neg (fun h => h h2), if_neg (fun h => h h3), if_pos h4]
  · intro h1 h2 h3 h4 h5
    simp only [_expect_read_response]
    rw [if_neg (by omega), if_neg (fun h => h h2), if_neg (fun h => h h3),
        if_neg (fun h => h h4), if_pos h5]
  · intro n h1 h2 h3 h4 h5 h6 h7
    simp only [_expect_read_response]
    rw [if_neg (by omega), if_neg (fun h => h h2), if_neg (fun h => h h3),
        if_neg (fun h => h h4), if_neg (fun h => h h5), h6]
    show (if payload.getD 2 0 ≠ n * 2 then _ else _) = _
    rw [if_pos h7]
  · intro h1 h2 h3 h4 h5 h6
    simp only [_expect_read_response]
    rw [if_neg (by omega), if_neg (fun h => h h2), if_neg (fun h => h h3),
        if_neg (fun h => h h4), if_neg (fun h => h h5)]
    rcases h6 with h | ⟨n, hn, hbc⟩
    · rw [h]
    · rw [hn]
      show (if payload.getD 2 0 ≠ n * 2 then _ else _) = _
      rw [if_neg (fun h => h hbc)]

/-- **C3 witness.** The ordered checks evaluated on concrete frames: a
4-byte response is rejected as too short even though its other fields are
also wrong, and a fully well-formed 1-register response decodes. -/
theorem expect_read_response_check_order_witness :
    _expect_read_response 1 3 [9, 9, 9, 9] (some 1) = .error .responseTooShort ∧
    _expect_read_response 1 3 (append_crc [1, 3, 2, 0, 5]) (some 1) = .ok (2, [0, 5]) := by
  constructor
  · exact (expect_read_response_check_order 1 3 [9, 9, 9, 9] (some 1)).1 (by decide)
  · exact (expect_read_response_check_order 1 3 (append_crc [1, 3, 2, 0, 5]) (some 1)).2.2.2.2.2.2
      (by decide) (by decide) (by decide) (by decide) (by decide)
      (Or.inr ⟨1, rfl, by decide⟩)

/-- **C2.** Building the request `build_read_holding(1, 171, 67)`
succeeds as the canonical 8-byte frame; a synthetic valid response (slave
1, function 3, byte count 134, the 67 register values big-endian, correct
trailing CRC) decodes via `decode_read_response(1, 171, 67, ...)` to
exactly those values; and the decoded block associates value `v[i]` with
absolute address `171 + i`, covering exactly addresses 171..237 (shown on
the block map `parse_from_block` is built from, and on two representative
parsed fields at addresses 171 and 229). -/
theorem modbus_read_roundtrip (v : List ℕ) (hlen : v.length = 67)
    (hval : ∀ x ∈ v, x < 65536) :
    build_read_holding 1 171 67 = .ok (append_crc [1, 3, 0, 171, 0, 67]) ∧
    decode_read_response 1 171 67 (append_crc (1 :: 3 :: 134 :: bytesOfRegs v))
      = .ok v ∧
    (∀ i, blockOf 171 v (171 + i) = v[i]?) ∧
    (∀ a, (blockOf 171 v a).isSome ↔ (171 ≤ a ∧ a ≤ 237)) ∧
    (parse_from_block 171 v).device_type = v[0]? ∧
    (parse_from_block 171 v).soc_percent = v[58]? := by
  have hb : (bytesOfRegs v).length = 134 := by
    rw [bytesOfRegs_length, hlen]
  refine ⟨rfl, ?_, ?_, ?_, ?_, ?_⟩
  · have h := expect_read_response_append_ok 1 3 134 (bytesOfRegs v) (some 67)
      hb.symm (Or.inr ⟨67, rfl, rfl⟩)
    simp only [decode_read_response, h]
    rw [bytes_to_u16_list, if_neg (by omega)]
    rw [regsOfBytes_bytesOfRegs]
  · intro i
    simp [blockOf]
  · intro a
    by_cases h : 171 ≤ a
    · rw [blockOf, if_pos h, getElem?_isSome_iff, hlen]
      omega
    · rw [blockOf, if_neg h]
      simp
      omega
  · show get_uint 171 v 171 = v[0]?
    simp [get_uint, blockOf]
  · show get_uint 171 v 229 = v[58]?
    simp [get_uint, blockOf]

/-- **C2 witness.** The round-trip instantiated at the all-zero register
block. -/
theorem modbus_read_roundtrip_witness :
    decode_read_response 1 171 67
        (append_crc (1 :: 3 :: 134 :: bytesOfRegs (List.replicate 67 0)))
      = .ok (List.replicate 67 0) ∧
    (parse_from_block 171 (List.replicate 67 0)).device_type = some 0 := by
  have h1 : (List.replicate 67 (0 : ℕ)).length = 67 := by simp
  have h2 : ∀ x ∈ List.replicate 67 (0 : ℕ), x < 65536 := by
    intro x hx
    have := List.eq_of_mem_replicate hx
    omega
  have h := modbus_read_roundtrip (List.replicate 67 0) h1 h2
  refine ⟨h.2.1, ?_⟩
  rw [h.2.2.2.2.1]
  decide

/-- **C4 counterexample.** With both currents present and equal to zero
the resolver returns a present `0.0` through the difference branch — not
an absent value as the claim states. -/
theorem battery_current_zero_zero_present :
    _battery_current (some 0) (some 0) = some 0 ∧
    some (0 : ℚ) ≠ (none : Option ℚ) := by
  constructor
  · simp [_battery_current]
  · exact Option.some_ne_none 0

/-- **C4 (amended).** The resolver returns absent only when both inputs
are absent; an absent input counts as 0; a positive charge with zero
discharge gives `+charge`, a positive discharge with zero charge gives
`-discharge`, and two nonzero inputs give `charge - discharge`; in
particular present zeros give a present 0, not absent.  The coordinator
copy computes the same function. -/
theorem battery_current_spec (ci di : Option ℚ) :
    _battery_current_signed ci di = _battery_current ci di ∧
    (ci = none → di = none → _battery_current ci di = none) ∧
    (0 < ci.getD 0 → di.getD 0 = 0 →
      _battery_current ci di = some (ci.getD 0)) ∧
    (0 < di.getD 0 → ci.getD 0 = 0 →
      _battery_current ci di = some (-(di.getD 0))) ∧
    (ci.getD 0 ≠ 0 → di.getD 0 ≠ 0 →
      _battery_current ci di = some (ci.getD 0 - di.getD 0)) := by
  refine ⟨rfl, ?_, ?_, ?_, ?_⟩
  · intro h1 h2
    simp [_battery_current, h1, h2]
  · intro h1 h2
    have hci : ¬ (ci = none ∧ di = none) := by
      rintro ⟨hc, -⟩
      rw [hc] at h1
      exact absurd h1 (by norm_num)
    rw [_battery_current, if_neg hci, if_pos ⟨h1, h2⟩]
  · intro h1 h2
    have hdi : ¬ (ci = none ∧ di = none) := by
      rintro ⟨-, hd⟩
      rw [hd] at h1
      exact absurd h1 (by norm_num)
    rw [_battery_current, if_neg hdi, if_neg (by rintro ⟨hc, -⟩; exact absurd h2 (by rw [h2] at hc ⊢; exact absurd hc (lt_irrefl 0))), if_pos ⟨h1, h2⟩]
  · intro h1 h2
    have hno : ¬ (ci = none ∧ di = none) := by
      rintro ⟨hc, -⟩
      rw [hc] at h1
      exact h1 rfl
    rw [_battery_current, if_neg hno,
      if_neg (by rintro ⟨-, hd⟩; exact h2 hd),
      if_neg (by rintro ⟨-, hc⟩; exact h1 hc)]

/-- **C4 witness.** The documented inputs: `8.9/0 → +8.9`, `0/3.2 →
-3.2`, `2/1 → 1`, and both-absent → absent. -/
theorem battery_current_spec_witness :
    _battery_current (some (89/10)) (some 0) = some (89/10) ∧
    _battery_current (some 0) (some (16/5)) = some (-(16/5)) ∧
    _battery_current (some 2) (some 1) = some 1 ∧
    _battery_current none none = none := by
  have h1 := (battery_current_spec (some (89/10)) (some 0)).2.2.1
    (by norm_num) (by norm_num)
  have h2 := (battery_current_spec (some 0) (some (16/5))).2.2.2.1
    (by norm_num) (by norm_num)
  have h3 := (battery_current_spec (some 2) (some 1)).2.2.2.2
    (by norm_num) (by norm_num)
  have h4 := (battery_current_spec (none : Option ℚ) none).2.1 rfl rfl
  refine ⟨by simpa using h1, by simpa using h2, ?_, h4⟩
  rw [h3]
  norm_num

/-- **C5 counterexample.** `update_energy_value` truncates the elapsed
time to a whole number of seconds (`int(now - prev_ts)`): with a previous
sample of 100 W taken 1.5 s earlier and a current sample of 100 W, the
code adds `1/3600 × 100 = 1/36` Wh while the claimed exact wall-clock
trapezoid is `1.5/3600 × 100 = 1/24` Wh. -/
theorem update_energy_truncates_seconds :
    (update_energy_value ⟨0, some 100, 0⟩ (3/2) 100).native_value = 1/36 ∧
    ((3/2 : ℚ) - 0) / 3600 * ((100 + 100) / 2) = 1/24 ∧
    (1/36 : ℚ) ≠ 1/24 := by
  refine ⟨?_, by norm_num, by norm_num⟩
  have hf : ratTrunc ((3/2 : ℚ) - 0) = 1 := by
    rw [ratTrunc, if_pos (by norm_num)]
    norm_num
  simp only [update_energy_value, hf]
  norm_num

/-- **C5 (amended).** The energy accumulator: a first sample is recorded
with its timestamp and accumulates nothing; every later sample adds the
trapezoid `(prev + cur)/2 × elapsed_hours`, where `update_energy_value`
first truncates the elapsed seconds to a whole integer
(`SocCalculatorMixin._accumulate` uses the exact delta), then replaces
the stored sample and timestamp; `[100 W, 100 W]` one hour apart adds
exactly +100 Wh and `[0 W, 200 W]` one hour apart also adds exactly
+100 Wh. -/
theorem energy_accumulator_spec (s : EnergySensorState) (now cur : ℚ) :
    (s.prev_value = none →
      update_energy_value s now cur = ⟨s.native_value, some cur, now⟩) ∧
    (∀ p, s.prev_value = some p →
      update_energy_value s now cur
        = ⟨s.native_value
            + ((ratTrunc (now - s.prev_value_timestamp) : ℚ) / 3600) * ((p + cur) / 2),
           some cur, now⟩) ∧
    (∀ t : SocState, t.has_prev = false →
      _accumulate t now cur
        = { t with prev_power := cur, prev_ts := now, has_prev := true }) ∧
    (∀ t : SocState, t.has_prev = true →
      _accumulate t now cur
        = { t with
            accumulated_energy_wh :=
              t.accumulated_energy_wh + (t.prev_power + cur) / 2 * ((now - t.prev_ts) / 3600),
            prev_power := cur, prev_ts := now }) ∧
    (∀ e ts t0 : ℚ,
      (update_energy_value (update_energy_value ⟨e, none, ts⟩ t0 100)
          (t0 + 3600) 100).native_value = e + 100) ∧
    (∀ e ts t0 : ℚ,
      (update_energy_value (update_energy_value ⟨e, none, ts⟩ t0 0)
          (t0 + 3600) 200).native_value = e + 100) := by
  have trunc3600 : ratTrunc (3600 : ℚ) = 3600 := by
    rw [ratTrunc, if_pos (by norm_num)]
    norm_num
  refine ⟨?_, ?_, ?_, ?_, ?_, ?_⟩
  · intro h
    simp [update_energy_value, h]
  · intro p h
    simp [update_energy_value, h]
  · intro t h
    simp [_accumulate, h]
  · intro t h
    simp [_accumulate, h]
  · intro e ts t0
    simp only [update_energy_value]
    norm_num [trunc3600]
  · intro e ts t0
    simp only [update_energy_value]
    norm_num [trunc3600]

/-- **C5 witness.** The amended accumulator behaviour at concrete
states: a first sample accumulates nothing; the two one-hour examples
add exactly +100 Wh each. -/
theorem energy_accumulator_spec_witness :
    update_energy_value ⟨7, none, 5⟩ 6 50 = ⟨7, some 50, 6⟩ ∧
    (update_energy_value (update_energy_value ⟨0, none, 0⟩ 0 100)
        (0 + 3600) 100).native_value = 0 + 100 ∧
    (update_energy_value (update_energy_value ⟨0, none, 0⟩ 0 0)
        (0 + 3600) 200).native_value = 0 + 100 := by
  refine ⟨(energy_accumulator_spec ⟨7, none, 5⟩ 6 50).1 rfl, ?_, ?_⟩
  · exact (energy_accumulator_spec ⟨0, none, 0⟩ 0 0).2.2.2.2.1 0 0 0
  · exact (energy_accumulator_spec ⟨0, none, 0⟩ 0 0).2.2.2.2.2 0 0 0

/-- **C6.** When battery voltage reaches the bulk threshold, or reaches
the float threshold while power lies in `(0, 2 × bulk]`, the accumulated
energy after the update equals the full capacity regardless of the prior
integration result, and the returned SOC is always
`accumulated / capacity × 100` over the post-clamp accumulated energy. -/
theorem soc_snap_to_full (s : SocState) (now cap bulk fv p v : ℚ)
    (hsnap : bulk ≤ v ∨ (fv ≤ v ∧ 0 < p ∧ p ≤ 2 * bulk)) :
    (calculate_soc s now cap bulk fv p v).1.accumulated_energy_wh = cap ∧
    (calculate_soc s now cap bulk fv p v).2
      = (calculate_soc s now cap bulk fv p v).1.accumulated_energy_wh / cap * 100 := by
  have hmin : min (max cap 0) cap = cap := min_eq_right (le_max_left _ _)
  constructor
  · show min (max (if bulk ≤ v ∨ (fv ≤ v ∧ 0 < p ∧ p ≤ 2 * bulk) then cap
        else (_accumulate s now p).accumulated_energy_wh) 0) cap = cap
    rw [if_pos hsnap, hmin]
  · rfl

/-- **C6 witness.** Capacity 100 Wh, accumulated 50 Wh, voltage 55 above
a bulk threshold of 54, power 10 W: the sample snaps the accumulated
energy to 100 Wh and reports 100 %. -/
theorem soc_snap_to_full_witness :
    (calculate_soc ⟨50, 0, 0, true⟩ 0 100 54 53 10 55).1.accumulated_energy_wh = 100 ∧
    (calculate_soc ⟨50, 0, 0, true⟩ 0 100 54 53 10 55).2 = 100 := by
  have h := soc_snap_to_full ⟨50, 0, 0, true⟩ 0 100 54 53 10 55 (Or.inl (by norm_num))
  refine ⟨h.1, ?_⟩
  rw [h.2, h.1]
  norm_num

theorem clamp_bounds (x cap : ℚ) (hcap : 0 ≤ cap) :
    0 ≤ min (max x 0) cap ∧ min (max x 0) cap ≤ cap :=
  ⟨le_min (le_max_right x 0) hcap, min_le_right _ _⟩

/-- **C10.** For every update with positive capacity, the post-update
accumulated energy lies in `[0, capacity]` and the returned SOC lies in
`[0, 100]`: the clamp runs unconditionally after every update, including
after the snap-to-full branch. -/
theorem soc_within_bounds (s : SocState) (now cap bulk fv p v : ℚ)
    (hcap : 0 < cap) :
    0 ≤ (calculate_soc s now cap bulk fv p v).1.accumulated_energy_wh ∧
    (calculate_soc s now cap bulk fv p v).1.accumulated_energy_wh ≤ cap ∧
    0 ≤ (calculate_soc s now cap bulk fv p v).2 ∧
    (calculate_soc s now cap bulk fv p v).2 ≤ 100 := by
  have hb := clamp_bounds (if bulk ≤ v ∨ (fv ≤ v ∧ 0 < p ∧ p ≤ 2 * bulk) then cap
    else (_accumulate s now p).accumulated_energy_wh) cap hcap.le
  refine ⟨hb.1, hb.2, ?_, ?_⟩
  · exact mul_nonneg (div_nonneg hb.1 hcap.le) (by norm_num)
  · have hq : min (max (if bulk ≤ v ∨ (fv ≤ v ∧ 0 < p ∧ p ≤ 2 * bulk) then cap
        else (_accumulate s now p).accumulated_energy_wh) 0) cap / cap ≤ 1 :=
      (div_le_one hcap).mpr hb.2
    calc (calculate_soc s now cap bulk fv p v).2
        ≤ 1 * 100 := mul_le_mul_of_nonneg_right hq (by norm_num)
      _ = 100 := by norm_num

/-- **C10 witness.** Bounds at a concrete update with capacity 100 Wh
and a wildly negative integration input. -/
theorem soc_within_bounds_witness :
    0 ≤ (calculate_soc ⟨-500, 0, 0, true⟩ 3600 100 57 54 (-400) 10).2 ∧
    (calculate_soc ⟨-500, 0, 0, true⟩ 3600 100 57 54 (-400) 10).2 ≤ 100 := by
  have h := soc_within_bounds ⟨-500, 0, 0, true⟩ 3600 100 57 54 (-400) 10 (by norm_num)
  exact ⟨h.2.2.1, h.2.2.2⟩

theorem get_int_none (start : ℕ) (regs : List ℕ) (addr : ℕ) (scale : ℚ)
    (h : blockOf start regs addr = none) : get_int start regs addr scale = none := by
  simp [get_int, h]

theorem get_ascii_none (start : ℕ) (regs : List ℕ) (addr words : ℕ)
    (h : ∃ i, i < words ∧ blockOf start regs (addr + i) = none) :
    get_ascii start regs addr words = none := by
  obtain ⟨i, hi, hn⟩ := h
  rw [get_ascii, if_neg]
  intro hall
  have hmem := List.all_eq_true.mp hall i (List.mem_range.mpr hi)
  rw [hn] at hmem
  exact absurd hmem (by simp)

/-- **C7.** Every mapped address that is missing from the decoded block
(for ascii-packed fields: any of the constituent addresses) yields an
absent (`none`) telemetry field, never zero or another sentinel; the
parse itself is total, so a block covering only part of the register map
still decodes. -/
theorem parse_absent_fields (start : ℕ) (regs : List ℕ) :
    (blockOf start regs 171 = none →
      (parse_from_block start regs).device_type = none) ∧
    ((∃ i, i < 12 ∧ blockOf start regs (172 + i) = none) →
      (parse_from_block start regs).device_name = none) ∧
    (blockOf start regs 184 = none →
      (parse_from_block start regs).protocol_number = none) ∧
    ((∃ i, i < 12 ∧ blockOf start regs (186 + i) = none) →
      (parse_from_block start regs).serial_number = none) ∧
    (blockOf start regs 201 = none →
      (parse_from_block start regs).work_mode = none) ∧
    (blockOf start regs 231 = none →
      (parse_from_block start regs).power_flow = none) ∧
    (blockOf start regs 202 = none →
      (parse_from_block start regs).mains_voltage_v = none) ∧
    (blockOf start regs 203 = none →
      (parse_from_block start regs).mains_freq_hz = none) ∧
    (blockOf start regs 204 = none →
      (parse_from_block start regs).mains_power_w = none) ∧
    (blockOf start regs 205 = none →
      (parse_from_block start regs).inv_voltage_v = none) ∧
    (blockOf start regs 206 = none →
      (parse_from_block start regs).inv_current_a = none) ∧
    (blockOf start regs 207 = none →
      (parse_from_block start regs).inv_freq_hz = none) ∧
    (blockOf start regs 208 = none →
      (parse_from_block start regs).inv_power_w = none) ∧
    (blockOf start regs 209 = none →
      (parse_from_block start regs).inv_charge_power_w = none) ∧
    (blockOf start regs 233 = none →
      (parse_from_block start regs).inv_charge_current_a = none) ∧
    (blockOf start regs 210 = none →
      (parse_from_block start regs).out_voltage_v = none) ∧
    (blockOf start regs 211 = none →
      (parse_from_block start regs).out_current_a = none) ∧
    (blockOf start regs 212 = none →
      (parse_from_block start regs).out_freq_hz = none) ∧
    (blockOf start regs 213 = none →
      (parse_from_block start regs).out_active_power_w = none) ∧
    (blockOf start regs 214 = none →
      (parse_from_block start regs).out_apparent_power_va = none) ∧
    (blockOf start regs 225 = none →
      (parse_from_block start regs).load_percent = none) ∧
    (blockOf start regs 215 = none →
      (parse_from_block start regs).bat_voltage_v = none) ∧
    (blockOf start regs 216 = none →
      (parse_from_block start regs).bat_current_a = none) ∧
    (blockOf start regs 217 = none →
      (parse_from_block start regs).bat_power_w = none) ∧
    (blockOf start regs 229 = none →
      (parse_from_block start regs).soc_percent = none) ∧
    (blockOf start regs 219 = none →
      (parse_from_block start regs).pv_voltage_v = none) ∧
    (blockOf start regs 220 = none →
      (parse_from_block start regs).pv_current_a = none) ∧
    (blockOf start regs 223 = none →
      (parse_from_block start regs).pv_power_w = none) ∧
    (blockOf start regs 224 = none →
      (parse_from_block start regs).pv_charge_power_w = none) ∧
    (blockOf start regs 234 = none →
      (parse_from_block start regs).pv_charge_current_a = none) := by
  refine ⟨?_, ?_, ?_, ?_, ?_, ?_, ?_, ?_, ?_, ?_, ?_, ?_, ?_, ?_, ?_, ?_, ?_, ?_, ?_, ?_, ?_, ?_, ?_, ?_, ?_, ?_, ?_, ?_, ?_, ?_⟩
  · intro h
    exact h
  · intro h
    exact get_ascii_none start regs 172 12 h
  · intro h
    exact h
  · intro h
    exact get_ascii_none start regs 186 12 h
  · intro h
    exact h
  · intro h
    show (get_uint start regs 231).map PowerFlow.from_raw = none
    show (blockOf start regs 231).map PowerFlow.from_raw = none
    rw [h]
    rfl
  · intro h
    exact get_int_none start regs 202 (1/10) h
  · intro h
    exact get_int_none start regs 203 (1/100) h
  · intro h
    show (get_int start regs 204 1).map ratTrunc = none
    rw [get_int_none start regs 204 1 h]
    rfl
  · intro h
    exact get_int_none start regs 205 (1/10) h
  · intro h
    exact get_int_none start regs 206 (1/10) h
  · intro h
    exact get_int_none start regs 207 (1/100) h
  · intro h
    show (get_int start regs 208 1).map ratTrunc = none
    rw [get_int_none start regs 208 1 h]
    rfl
  · intro h
    show (get_int start regs 209 1).map ratTrunc = none
    rw [get_int_none start regs 209 1 h]
    rfl
  · intro h
    exact get_int_none start regs 233 (1/10) h
  · intro h
    exact get_int_none start regs 210 (1/10) h
  · intro h
    exact get_int_none start regs 211 (1/10) h
  · intro h
    exact get_int_none start regs 212 (1/100) h
  · intro h
    show (get_int start regs 213 1).map ratTrunc = none
    rw [get_int_none start regs 213 1 h]
    rfl
  · intro h
    show (get_int start regs 214 1).map ratTrunc = none
    rw [get_int_none start regs 214 1 h]
    rfl
  · intro h
    show (get_int start regs 225 1).map ratTrunc = none
    rw [get_int_none start regs 225 1 h]
    rfl
  · intro h
    exact get_int_none start regs 215 (1/10) h
  · intro h
    exact get_int_none start regs 216 (1/10) h
  · intro h
    show (get_int start regs 217 1).map ratTrunc = none
    rw [get_int_none start regs 217 1 h]
    rfl
  · intro h
    exact h
  · intro h
    exact get_int_none start regs 219 (1/10) h
  · intro h
    exact get_int_none start regs 220 (1/10) h
  · intro h
    show (get_int start regs 223 1).map ratTrunc = none
    rw [get_int_none start regs 223 1 h]
    rfl
  · intro h
    show (get_int start regs 224 1).map ratTrunc = none
    rw [get_int_none start regs 224 1 h]
    rfl
  · intro h
    exact get_int_none start regs 234 (1/10) h

/-- **C7 witness.** A two-register block at addresses 300..301 covers no
mapped address at all: every telemetry field comes out absent. -/
theorem parse_absent_fields_witness :
    (parse_from_block 300 [1, 2]).device_type = none ∧
    (parse_from_block 300 [1, 2]).device_name = none ∧
    (parse_from_block 300 [1, 2]).protocol_number = none ∧
    (parse_from_block 300 [1, 2]).serial_number = none ∧
    (parse_from_block 300 [1, 2]).work_mode = none ∧
    (parse_from_block 300 [1, 2]).power_flow = none ∧
    (parse_from_block 300 [1, 2]).mains_voltage_v = none ∧
    (parse_from_block 300 [1, 2]).mains_freq_hz = none ∧
    (parse_from_block 300 [1, 2]).mains_power_w = none ∧
    (parse_from_block 300 [1, 2]).inv_voltage_v = none ∧
    (parse_from_block 300 [1, 2]).inv_current_a = none ∧
    (parse_from_block 300 [1, 2]).inv_freq_hz = none ∧
    (parse_from_block 300 [1, 2]).inv_power_w = none ∧
    (parse_from_block 300 [1, 2]).inv_charge_power_w = none ∧
    (parse_from_block 300 [1, 2]).inv_charge_current_a = none ∧
    (parse_from_block 300 [1, 2]).out_voltage_v = none ∧
    (parse_from_block 300 [1, 2]).out_current_a = none ∧
    (parse_from_block 300 [1, 2]).out_freq_hz = none ∧
    (parse_from_block 300 [1, 2]).out_active_power_w = none ∧
    (parse_from_block 300 [1, 2]).out_apparent_power_va = none ∧
    (parse_from_block 300 [1, 2]).load_percent = none ∧
    (parse_from_block 300 [1, 2]).bat_voltage_v = none ∧
    (parse_from_block 300 [1, 2]).bat_current_a = none ∧
    (parse_from_block 300 [1, 2]).bat_power_w = none ∧
    (parse_from_block 300 [1, 2]).soc_percent = none ∧
    (parse_from_block 300 [1, 2]).pv_voltage_v = none ∧
    (parse_from_block 300 [1, 2]).pv_current_a = none ∧
    (parse_from_block 300 [1, 2]).pv_power_w = none ∧
    (parse_from_block 300 [1, 2]).pv_charge_power_w = none ∧
    (parse_from_block 300 [1, 2]).pv_charge_current_a = none := by
  have h := parse_absent_fields 300 [1, 2]
  exact ⟨h.1 (by decide),
    h.2.1 ⟨0, by norm_num, by decide⟩,
    h.2.2.1 (by decide),
    h.2.2.2.1 ⟨0, by norm_num, by decide⟩,
    h.2.2.2.2.1 (by decide),
    h.2.2.2.2.2.1 (by decide),
    h.2.2.2.2.2.2.1 (by decide),
    h.2.2.2.2.2.2.2.1 (by decide),
    h.2.2.2.2.2.2.2.2.1 (by decide),
    h.2.2.2.2.2.2.2.2.2.1 (by decide),
    h.2.2.2.2.2.2.2.2.2.2.1 (by decide),
    h.2.2.2.2.2.2.2.2.2.2.2.1 (by decide),
    h.2.2.2.2.2.2.2.2.2.2.2.2.1 (by decide),
    h.2.2.2.2.2.2.2.2.2.2.2.2.2.1 (by decide),
    h.2.2.2.2.2.2.2.2.2.2.2.2.2.2.1 (by decide),
    h.2.2.2.2.2.2.2.2.2.2.2.2.2.2.2.1 (by decide),
    h.2.2.2.2.2.2.2.2.2.2.2.2.2.2.2.2.1 (by decide),
    h.2.2.2.2.2.2.2.2.2.2.2.2.2.2.2.2.2.1 (by decide),
    h.2.2.2.2.2.2.2.2.2.2.2.2.2.2.2.2.2.2.1 (by decide),
    h.2.2.2.2.2.2.2.2.2.2.2.2.2.2.2.2.2.2.2.1 (by decide),
    h.2.2.2.2.2.2.2.2.2.2.2.2.2.2.2.2.2.2.2.2.1 (by decide),
    h.2.2.2.2.2.2.2.2.2.2.2.2.2.2.2.2.2.2.2.2.2.1 (by decide),
    h.2.2.2.2.2.2.2.2.2.2.2.2.2.2.2.2.2.2.2.2.2.2.1 (by decide),
    h.2.2.2.2.2.2.2.2.2.2.2.2.2.2.2.2.2.2.2.2.2.2.2.1 (by decide),
    h.2.2.2.2.2.2.2.2.2.2.2.2.2.2.2.2.2.2.2.2.2.2.2.2.1 (by decide),
    h.2.2.2.2.2.2.2.2.2.2.2.2.2.2.2.2.2.2.2.2.2.2.2.2.2.1 (by decide),
    h.2.2.2.2.2.2.2.2.2.2.2.2.2.2.2.2.2.2.2.2.2.2.2.2.2.2.1 (by decide),
    h.2.2.2.2.2.2.2.2.2.2.2.2.2.2.2.2.2.2.2.2.2.2.2.2.2.2.2.1 (by decide),
    h.2.2.2.2.2.2.2.2.2.2.2.2.2.2.2.2.2.2.2.2.2.2.2.2.2.2.2.2.1 (by decide),
    h.2.2.2.2.2.2.2.2.2.2.2.2.2.2.2.2.2.2.2.2.2.2.2.2.2.2.2.2.2 (by decide)⟩

/-- **C8 (code evaluated at the failing input).** A device name packed
as the registers 0x4142 (the bytes A, B) followed by eleven zero
registers decodes, through the `get_ascii` path actually used by
`parse_from_block`, to the bytes `A B` followed by 22 NUL (0x00) bytes:
the trailing NULs are NOT removed, because the source right-strips the
character set backslash / letter x / digit 0 (a doubled-backslash string
literal) instead of the NUL byte.  The module helper `_ascii` — the
behaviour the claim describes — strips them.  Worse, a name whose
registers spell the ASCII characters A B 0 0 loses its two legitimate
trailing zero characters on the same path. -/
theorem get_ascii_keeps_trailing_nuls :
    get_ascii 172 (0x4142 :: List.replicate 11 0) 172 12
      = some (65 :: 66 :: List.replicate 22 0) ∧
    _ascii (65 :: 66 :: List.replicate 22 0) = [65, 66] ∧
    get_ascii 172 [0x4142, 0x3030] 172 2 = some [65, 66] := by
  exact ⟨by decide, by decide, by decide⟩

/-- **C9 counterexample.** The token `230.0` of the documented response
has an integral value, so the decoder converts it to the int `230` — not
the float `230.0` the claim asserts. -/
theorem qpigs_grid_voltage_is_int :
    (decode_qpigs "230.0 50.0 230.0 50.0 0800 0600 030 392 52.4 010 062").lookup
        "grid_voltage" = some (PyVal.int 230) ∧
    PyVal.int 230 ≠ PyVal.float (230 : ℚ) := by
  refine ⟨by decide, ?_⟩
  intro h
  exact PyVal.noConfusion h

/-- **C9 (amended).** Each whitespace-separated token is parsed
opportunistically as a number — becoming an int when the value is
integral, a float otherwise — and kept as the original string when
numeric parsing fails, never an error; on the documented response,
`grid_voltage` decodes to the int `230` (the value `230.0` is integral),
`battery_capacity` to the int `62`, and `battery_voltage` to the float
`52.4`. -/
theorem qpigs_decode_spec :
    (∀ t : String, parsePyFloatParts t = none → parse_value t = PyVal.str t) ∧
    (decode_qpigs "230.0 50.0 230.0 50.0 0800 0600 030 392 52.4 010 062").lookup
        "grid_voltage" = some (PyVal.int 230) ∧
    (decode_qpigs "230.0 50.0 230.0 50.0 0800 0600 030 392 52.4 010 062").lookup
        "battery_capacity" = some (PyVal.int 62) ∧
    (decode_qpigs "230.0 50.0 230.0 50.0 0800 0600 030 392 52.4 010 062").lookup
        "battery_voltage" = some (PyVal.float (262/5)) := by
  refine ⟨?_, by decide, by decide, ?_⟩
  · intro t h
    rw [parse_value, h]
  · have h : (decode_qpigs "230.0 50.0 230.0 50.0 0800 0600 030 392 52.4 010 062").lookup
        "battery_voltage" = some (PyVal.float ((524 : ℚ) / ((10 ^ (1 : ℕ) : ℤ) : ℚ))) := by
      rfl
    rw [h]
    norm_num

/-- **C9 witness.** A non-numeric token is kept verbatim as a string
field, not an error. -/
theorem qpigs_decode_spec_witness :
    parse_value "N/A" = PyVal.str "N/A" :=
  qpigs_decode_spec.1 "N/A" (by decide)

end DessMonitor
